import Mathlib

/-!
Verification of the action dispatcher and response-normalization layer of a
GitHub MCP bridge server, together with the request primitive of its upstream
HTTP client.

The embedding models Python JSON-like values (`Value`), Python truthiness,
`int(...)` coercion, `dict.get`, and iteration.  Each action handler of
`GitHubMCPServer` (src/mcp_server.py) is translated into a total Lean function
from an abstract upstream client and a parameter mapping to a normalized
result paired with the number of upstream calls made.  Exceptions of the
Python code are modelled with `Except String`: every place where the Python
code can raise is a place where the embedded computation produces `.error`,
and the surrounding `try/except` of each handler is the final `match` that
converts such an error into a `HandlerResult.error` value.
-/

/-- A Python/JSON-like value: None, strings, integers, booleans, lists and
string-keyed dictionaries (field order preserved, as in a Python dict). -/
inductive Value where
  | vNull : Value
  | vStr (s : String) : Value
  | vInt (n : Int) : Value
  | vBool (b : Bool) : Value
  | vList (xs : List Value) : Value
  | vObj (fields : List (String × Value)) : Value

/-- The parameter mapping of an incoming action (`action.params`). -/
abbrev Params := List (String × Value)

/-- Python truthiness: `None`, `""`, `0`, `False`, `[]` and `{}` are falsy. -/
def truthy : Value → Bool
  | .vNull => false
  | .vStr s => !s.isEmpty
  | .vInt n => n != 0
  | .vBool b => b
  | .vList xs => !xs.isEmpty
  | .vObj fs => !fs.isEmpty

/-- Python `params.get(k)`: the value bound to `k`, or `None` when absent. -/
def paramsGet (p : Params) (k : String) : Value :=
  (List.lookup k p).getD Value.vNull

/-- Python `params.get(k, d)`: the value bound to `k`, or the default `d`. -/
def paramsGetD (p : Params) (k : String) (d : Value) : Value :=
  (List.lookup k p).getD d

/-- Python `v.get(k)` on a fetched value: succeeds with the field (or `None`
when the key is absent) when `v` is a dict, and raises otherwise. -/
def dictGet (v : Value) (k : String) : Except String Value :=
  match v with
  | .vObj fs => .ok ((List.lookup k fs).getD Value.vNull)
  | _ => .error "AttributeError: object has no attribute get"

/-- Python `v.get(k, d)` on a fetched value: like `dictGet` but with an
explicit default. -/
def dictGetD (v : Value) (k : String) (d : Value) : Except String Value :=
  match v with
  | .vObj fs => .ok ((List.lookup k fs).getD d)
  | _ => .error "AttributeError: object has no attribute get"

/-- Total field lookup used only to state theorems about records that are
known to be dicts: the field bound to `k`, `None` when absent or when `v`
is not a dict. -/
def objLookup (v : Value) (k : String) : Value :=
  match v with
  | .vObj fs => (List.lookup k fs).getD Value.vNull
  | _ => Value.vNull

/-- Python iteration `for x in v`: lists yield their elements, dicts their
keys, strings their one-character substrings; other values raise TypeError. -/
def pyIter (v : Value) : Except String (List Value) :=
  match v with
  | .vList xs => .ok xs
  | .vObj fs => .ok (fs.map fun f => Value.vStr f.1)
  | .vStr s => .ok (s.toList.map fun c => Value.vStr (String.singleton c))
  | .vNull => .error "TypeError: NoneType object is not iterable"
  | .vInt _ => .error "TypeError: int object is not iterable"
  | .vBool _ => .error "TypeError: bool object is not iterable"

/-- ASCII whitespace, as stripped by Python around an integer literal. -/
def isSpaceChar (c : Char) : Bool :=
  c == ' ' || c == '\t' || c == '\n' || c == '\r'

/-- Strip leading and trailing whitespace from a character list. -/
def trimChars (cs : List Char) : List Char :=
  ((cs.dropWhile isSpaceChar).reverse.dropWhile isSpaceChar).reverse

/-- Python `s.upper()` on ASCII strings. -/
def strUpper (s : String) : String :=
  String.mk (s.toList.map Char.toUpper)

/-- Nonempty string of decimal digits. -/
def allDigits (cs : List Char) : Bool :=
  !cs.isEmpty && cs.all fun c => c.isDigit

/-- Decimal value of a digit string. -/
def digitsToNat (cs : List Char) : Nat :=
  cs.foldl (fun a c => a * 10 + (c.toNat - 48)) 0

/-- Parse of a Python-style integer literal: optional surrounding whitespace,
optional sign, then decimal digits. -/
def parsePyInt (s : String) : Option Int :=
  match trimChars s.toList with
  | [] => none
  | c :: cs =>
    if c = '-' then
      if allDigits cs then some (-(digitsToNat cs : Int)) else none
    else if c = '+' then
      if allDigits cs then some ((digitsToNat cs : Int)) else none
    else
      if allDigits (c :: cs) then some ((digitsToNat (c :: cs) : Int)) else none

/-- Python `int(v)`: integers pass through, booleans coerce to 0/1, strings
are parsed as decimal literals; `None`, lists and dicts raise TypeError, and
an unparsable string raises ValueError. -/
def pyInt (v : Value) : Except String Int :=
  match v with
  | .vInt n => .ok n
  | .vBool b => .ok (if b then 1 else 0)
  | .vStr s =>
    match parsePyInt s with
    | some n => .ok n
    | none => .error ("invalid literal for int() with base 10: " ++ s)
  | .vNull => .error "int() argument must be a string, a bytes-like object or a real number, not NoneType"
  | .vList _ => .error "int() argument must be a string, a bytes-like object or a real number, not list"
  | .vObj _ => .error "int() argument must be a string, a bytes-like object or a real number, not dict"

/-- The Python `for` loop that builds `formatted_...` lists: apply `f` to each
element in order, propagating the first raised exception. -/
def mapExcept (f : Value → Except String Value) : List Value → Except String (List Value)
  | [] => .ok []
  | x :: xs =>
    match f x with
    | .error e => .error e
    | .ok y =>
      match mapExcept f xs with
      | .error e => .error e
      | .ok ys => .ok (y :: ys)

/-- The outcome an action handler returns to the Server Adapter: either an
`ActionSuccessResult` carrying a result mapping or an `ActionErrorResult`
carrying an error string. -/
inductive HandlerResult where
  | success (result : Value) : HandlerResult
  | error (error : String) : HandlerResult

/-- The interface of the upstream client as consumed by the dispatcher
(`self.github_client`): one method per logical operation, each either
returning parsed JSON or raising (modelled by `Except`).  The behaviour is
arbitrary: theorems quantify over all clients. -/
structure UpstreamClient where
  search_repositories : Value → Int → Value → Value → Except String Value
  get_repository : Value → Value → Except String Value
  get_issues : Value → Value → Value → Int → Except String Value
  create_issue : Value → Value → Value → Value → Value → Except String Value
  get_pull_requests : Value → Value → Value → Int → Except String Value
  get_user : Value → Except String Value
  get_user_repos : Value → Int → Value → Except String Value

/-- A stub client whose every method returns the same fixed outcome. -/
def constClient (v : Except String Value) : UpstreamClient where
  search_repositories := fun _ _ _ _ => v
  get_repository := fun _ _ => v
  get_issues := fun _ _ _ _ => v
  create_issue := fun _ _ _ _ _ => v
  get_pull_requests := fun _ _ _ _ => v
  get_user := fun _ => v
  get_user_repos := fun _ _ _ => v

/-- Reshaping of one raw repository record inside `handle_search_repositories`:
eight `repo.get(...)` calls building the curated entry. -/
def formatSearchRepo (repo : Value) : Except String Value := do
  let name ← dictGet repo "full_name"
  let description ← dictGet repo "description"
  let stars ← dictGet repo "stargazers_count"
  let forks ← dictGet repo "forks_count"
  let language ← dictGet repo "language"
  let url ← dictGet repo "html_url"
  let created ← dictGet repo "created_at"
  let updated ← dictGet repo "updated_at"
  return Value.vObj [("name", name), ("description", description), ("stars", stars),
    ("forks", forks), ("language", language), ("url", url),
    ("created_at", created), ("updated_at", updated)]

/-- The successful image of `formatSearchRepo` on a dict record, used in
theorem statements: `formatSearchRepo (Value.vObj fs) = .ok (searchRepoFields (Value.vObj fs))`. -/
def searchRepoFields (repo : Value) : Value :=
  Value.vObj [("name", objLookup repo "full_name"), ("description", objLookup repo "description"),
    ("stars", objLookup repo "stargazers_count"), ("forks", objLookup repo "forks_count"),
    ("language", objLookup repo "language"), ("url", objLookup repo "html_url"),
    ("created_at", objLookup repo "created_at"), ("updated_at", objLookup repo "updated_at")]

/-- Reshaping of one raw issue record inside `handle_list_issues`; the user
login is fetched as `issue.get("user", {}).get("login")`. -/
def formatIssue (issue : Value) : Except String Value := do
  let number ← dictGet issue "number"
  let title ← dictGet issue "title"
  let state ← dictGet issue "state"
  let created ← dictGet issue "created_at"
  let updated ← dictGet issue "updated_at"
  let userObj ← dictGetD issue "user" (Value.vObj [])
  let user ← dictGet userObj "login"
  let url ← dictGet issue "html_url"
  let comments ← dictGet issue "comments"
  return Value.vObj [("number", number), ("title", title), ("state", state),
    ("created_at", created), ("updated_at", updated), ("user", user),
    ("url", url), ("comments", comments)]

/-- The successful image of `formatIssue` on an issue record whose user login
is absent (no `user` field, or a `user` dict without `login`), used in theorem
statements. -/
def issueFieldsNullUser (issue : Value) : Value :=
  Value.vObj [("number", objLookup issue "number"), ("title", objLookup issue "title"),
    ("state", objLookup issue "state"), ("created_at", objLookup issue "created_at"),
    ("updated_at", objLookup issue "updated_at"), ("user", Value.vNull),
    ("url", objLookup issue "html_url"), ("comments", objLookup issue "comments")]

/-- Reshaping of the created-issue record inside `handle_create_issue`. -/
def formatCreatedIssue (issue : Value) : Except String Value := do
  let number ← dictGet issue "number"
  let title ← dictGet issue "title"
  let url ← dictGet issue "html_url"
  return Value.vObj [("number", number), ("title", title), ("url", url)]

/-- Reshaping of one raw pull-request record inside `handle_list_pull_requests`. -/
def formatPullRequest (pr : Value) : Except String Value := do
  let number ← dictGet pr "number"
  let title ← dictGet pr "title"
  let state ← dictGet pr "state"
  let created ← dictGet pr "created_at"
  let updated ← dictGet pr "updated_at"
  let userObj ← dictGetD pr "user" (Value.vObj [])
  let user ← dictGet userObj "login"
  let url ← dictGet pr "html_url"
  return Value.vObj [("number", number), ("title", title), ("state", state),
    ("created_at", created), ("updated_at", updated), ("user", user), ("url", url)]

/-- Reshaping of the raw user record inside `handle_get_user_profile`. -/
def formatUserProfile (user_data : Value) : Except String Value := do
  let login ← dictGet user_data "login"
  let name ← dictGet user_data "name"
  let bio ← dictGet user_data "bio"
  let company ← dictGet user_data "company"
  let location ← dictGet user_data "location"
  let public_repos ← dictGet user_data "public_repos"
  let followers ← dictGet user_data "followers"
  let following ← dictGet user_data "following"
  let created ← dictGet user_data "created_at"
  let url ← dictGet user_data "html_url"
  return Value.vObj [("login", login), ("name", name), ("bio", bio),
    ("company", company), ("location", location), ("public_repos", public_repos),
    ("followers", followers), ("following", following),
    ("created_at", created), ("url", url)]

/-- Reshaping of one raw repository record inside `handle_list_repos_for_user`. -/
def formatUserRepo (repo : Value) : Except String Value := do
  let name ← dictGet repo "name"
  let full_name ← dictGet repo "full_name"
  let description ← dictGet repo "description"
  let language ← dictGet repo "language"
  let stars ← dictGet repo "stargazers_count"
  let forks ← dictGet repo "forks_count"
  let url ← dictGet repo "html_url"
  let created ← dictGet repo "created_at"
  let updated ← dictGet repo "updated_at"
  return Value.vObj [("name", name), ("full_name", full_name), ("description", description),
    ("language", language), ("stars", stars), ("forks", forks), ("url", url),
    ("created_at", created), ("updated_at", updated)]

/-- Handler of the `search_repositories` action (src/mcp_server.py lines
45-75).  The second component of the result counts upstream calls made. -/
def handle_search_repositories (client : UpstreamClient) (params : Params) :
    HandlerResult × Nat :=
  match pyInt (paramsGetD params "limit" (Value.vInt 5)) with
  | .error e => (.error ("Failed to search repositories: " ++ e), 0)
  | .ok limit =>
    if !(truthy (paramsGetD params "query" (Value.vStr ""))) then
      (.error "Query parameter is required", 0)
    else
      match client.search_repositories (paramsGetD params "query" (Value.vStr "")) limit
          (paramsGetD params "sort" (Value.vStr "stars"))
          (paramsGetD params "order" (Value.vStr "desc")) with
      | .error e => (.error ("Failed to search repositories: " ++ e), 1)
      | .ok repos =>
        match pyIter repos with
        | .error e => (.error ("Failed to search repositories: " ++ e), 1)
        | .ok repoList =>
          match mapExcept formatSearchRepo repoList with
          | .error e => (.error ("Failed to search repositories: " ++ e), 1)
          | .ok formatted =>
            (.success (Value.vObj [("repositories", Value.vList formatted)]), 1)

/-- Handler of the `get_repository` action (src/mcp_server.py lines 77-91). -/
def handle_get_repository (client : UpstreamClient) (params : Params) :
    HandlerResult × Nat :=
  if !(truthy (paramsGet params "owner")) || !(truthy (paramsGet params "repo")) then
    (.error "Owner and repo parameters are required", 0)
  else
    match client.get_repository (paramsGet params "owner") (paramsGet params "repo") with
    | .error e => (.error ("Failed to get repository: " ++ e), 1)
    | .ok repo_data => (.success (Value.vObj [("repository", repo_data)]), 1)

/-- Handler of the `list_issues` action (src/mcp_server.py lines 93-123). -/
def handle_list_issues (client : UpstreamClient) (params : Params) :
    HandlerResult × Nat :=
  match pyInt (paramsGetD params "limit" (Value.vInt 10)) with
  | .error e => (.error ("Failed to list issues: " ++ e), 0)
  | .ok limit =>
    if !(truthy (paramsGet params "owner")) || !(truthy (paramsGet params "repo")) then
      (.error "Owner and repo parameters are required", 0)
    else
      match client.get_issues (paramsGet params "owner") (paramsGet params "repo")
          (paramsGetD params "state" (Value.vStr "open")) limit with
      | .error e => (.error ("Failed to list issues: " ++ e), 1)
      | .ok issues =>
        match pyIter issues with
        | .error e => (.error ("Failed to list issues: " ++ e), 1)
        | .ok issueList =>
          match mapExcept formatIssue issueList with
          | .error e => (.error ("Failed to list issues: " ++ e), 1)
          | .ok formatted =>
            (.success (Value.vObj [("issues", Value.vList formatted)]), 1)

/-- Handler of the `create_issue` action (src/mcp_server.py lines 125-146). -/
def handle_create_issue (client : UpstreamClient) (params : Params) :
    HandlerResult × Nat :=
  if !(truthy (paramsGet params "owner")) || !(truthy (paramsGet params "repo"))
      || !(truthy (paramsGet params "title")) then
    (.error "Owner, repo, and title parameters are required", 0)
  else
    match client.create_issue (paramsGet params "owner") (paramsGet params "repo")
        (paramsGet params "title") (paramsGetD params "body" (Value.vStr ""))
        (paramsGetD params "labels" (Value.vList [])) with
    | .error e => (.error ("Failed to create issue: " ++ e), 1)
    | .ok issue =>
      match formatCreatedIssue issue with
      | .error e => (.error ("Failed to create issue: " ++ e), 1)
      | .ok fmt => (.success (Value.vObj [("issue", fmt)]), 1)

/-- Handler of the `list_pull_requests` action (src/mcp_server.py lines 148-177). -/
def handle_list_pull_requests (client : UpstreamClient) (params : Params) :
    HandlerResult × Nat :=
  match pyInt (paramsGetD params "limit" (Value.vInt 10)) with
  | .error e => (.error ("Failed to list pull requests: " ++ e), 0)
  | .ok limit =>
    if !(truthy (paramsGet params "owner")) || !(truthy (paramsGet params "repo")) then
      (.error "Owner and repo parameters are required", 0)
    else
      match client.get_pull_requests (paramsGet params "owner") (paramsGet params "repo")
          (paramsGetD params "state" (Value.vStr "open")) limit with
      | .error e => (.error ("Failed to list pull requests: " ++ e), 1)
      | .ok pull_requests =>
        match pyIter pull_requests with
        | .error e => (.error ("Failed to list pull requests: " ++ e), 1)
        | .ok prList =>
          match mapExcept formatPullRequest prList with
          | .error e => (.error ("Failed to list pull requests: " ++ e), 1)
          | .ok formatted =>
            (.success (Value.vObj [("pull_requests", Value.vList formatted)]), 1)

/-- Handler of the `get_user_profile` action (src/mcp_server.py lines 179-206). -/
def handle_get_user_profile (client : UpstreamClient) (params : Params) :
    HandlerResult × Nat :=
  if !(truthy (paramsGet params "username")) then
    (.error "Username parameter is required", 0)
  else
    match client.get_user (paramsGet params "username") with
    | .error e => (.error ("Failed to get user profile: " ++ e), 1)
    | .ok user_data =>
      match formatUserProfile user_data with
      | .error e => (.error ("Failed to get user profile: " ++ e), 1)
      | .ok profile => (.success (Value.vObj [("user", profile)]), 1)

/-- Handler of the `list_repos_for_user` action (src/mcp_server.py lines 208-238). -/
def handle_list_repos_for_user (client : UpstreamClient) (params : Params) :
    HandlerResult × Nat :=
  match pyInt (paramsGetD params "limit" (Value.vInt 10)) with
  | .error e => (.error ("Failed to list repositories for user: " ++ e), 0)
  | .ok limit =>
    if !(truthy (paramsGet params "username")) then
      (.error "Username parameter is required", 0)
    else
      match client.get_user_repos (paramsGet params "username") limit
          (paramsGetD params "sort" (Value.vStr "updated")) with
      | .error e => (.error ("Failed to list repositories for user: " ++ e), 1)
      | .ok repos =>
        match pyIter repos with
        | .error e => (.error ("Failed to list repositories for user: " ++ e), 1)
        | .ok repoList =>
          match mapExcept formatUserRepo repoList with
          | .error e => (.error ("Failed to list repositories for user: " ++ e), 1)
          | .ok formatted =>
            (.success (Value.vObj [("repositories", Value.vList formatted)]), 1)

/-- A parsed upstream HTTP response as seen by `GitHubClient._make_request`:
a status code and the outcome of attempting to parse the body as JSON. -/
structure HttpResponse where
  status : Nat
  jsonBody : Except String Value

/-- Base URL of the upstream API (`self.base_url`). -/
def baseUrl : String := "https://api.github.com"

/-- The request primitive `GitHubClient._make_request` (src/github_client.py
lines 25-59).  `send verb url params data` models one HTTP exchange performed
by the transport library; `raise_for_status` is modelled by the 400-check, and
a 204 response returns an empty dict without consulting the body parse. -/
def make_request (send : String → String → Option Value → Option Value → HttpResponse)
    (method endpoint : String) (params data : Option Value) : Except String Value :=
  match
    (if strUpper method = "GET" then
      Except.ok (send "GET" (baseUrl ++ endpoint) params none)
    else if strUpper method = "POST" then
      Except.ok (send "POST" (baseUrl ++ endpoint) params data)
    else if strUpper method = "PUT" then
      Except.ok (send "PUT" (baseUrl ++ endpoint) params data)
    else if strUpper method = "DELETE" then
      Except.ok (send "DELETE" (baseUrl ++ endpoint) params none)
    else
      Except.error ("Unsupported HTTP method: " ++ method) : Except String HttpResponse)
  with
  | .error e => .error e
  | .ok response =>
    if 400 ≤ response.status then
      .error ("HTTP status error: " ++ toString response.status)
    else if response.status = 204 then
      .ok (Value.vObj [])
    else
      response.jsonBody

/-- Whether the character list `pat` occurs at the start of `s`. -/
def listStartsWith : List Char → List Char → Bool
  | _, [] => true
  | [], _ :: _ => false
  | c :: cs, d :: ds => c == d && listStartsWith cs ds

/-- Whether the character list `pat` occurs anywhere in `s`. -/
def listHasSub : List Char → List Char → Bool
  | [], pat => pat.isEmpty
  | c :: cs, pat => listStartsWith (c :: cs) pat || listHasSub cs pat

/-- Whether `pat` occurs as a substring of `s`. -/
def strContains (s pat : String) : Bool :=
  listHasSub s.toList pat.toList

/-- Every handler outcome is a success pair or an error pair. -/
theorem handler_outcome (r : HandlerResult × Nat) :
    (∃ v n, r = (HandlerResult.success v, n)) ∨ (∃ e n, r = (HandlerResult.error e, n)) := by
  obtain ⟨r', n⟩ := r
  cases r' with
  | success v => exact Or.inl ⟨v, n, rfl⟩
  | error e => exact Or.inr ⟨e, n, rfl⟩

/-- A key that is not among the keys of an association list has no binding. -/
theorem lookup_eq_none_of_not_mem (k : String) (p : Params) (h : k ∉ p.map Prod.fst) :
    List.lookup k p = none := by
  induction p with
  | nil => rfl
  | cons kv rest ih =>
    simp only [List.map_cons, List.mem_cons] at h
    push_neg at h
    obtain ⟨h1, h2⟩ := h
    obtain ⟨k1, v1⟩ := kv
    have hb : (k == k1) = false := by simpa using h1
    simp [List.lookup, hb, ih h2]

/-- When `f` succeeds as `g` on every element, `mapExcept f` is `List.map g`. -/
theorem mapExcept_congr_ok (f : Value → Except String Value) (g : Value → Value)
    (rs : List Value) (h : ∀ r ∈ rs, f r = .ok (g r)) :
    mapExcept f rs = .ok (rs.map g) := by
  induction rs with
  | nil => rfl
  | cons x xs ih =>
    have hx := h x (by simp)
    have ihh := ih fun r hr => h r (by simp [hr])
    simp [mapExcept, hx, ihh]

/-- When `f` succeeds on every element with a value satisfying `P`, so does
`mapExcept f`, elementwise and length-preserving. -/
theorem mapExcept_ok_of_forall_ex (f : Value → Except String Value) (P : Value → Prop)
    (rs : List Value) (h : ∀ r ∈ rs, ∃ v, f r = .ok v ∧ P v) :
    ∃ out, mapExcept f rs = .ok out ∧ out.length = rs.length ∧ ∀ v ∈ out, P v := by
  induction rs with
  | nil => exact ⟨[], rfl, rfl, by simp⟩
  | cons x xs ih =>
    obtain ⟨v, hv, hP⟩ := h x (by simp)
    obtain ⟨out, hout, hlen, hall⟩ := ih fun r hr => h r (by simp [hr])
    refine ⟨v :: out, ?_, by simp [hlen], ?_⟩
    · simp [mapExcept, hv, hout]
    · intro w hw
      rcases List.mem_cons.mp hw with rfl | hw2
      · exact hP
      · exact hall w hw2

/-- Claim C1: every action handler of the dispatcher is total — for every
upstream client behaviour (including one that raises on every call) and every
parameter mapping, each of the seven handlers returns either a success result
or an error result; no exception escapes to the Server Adapter. -/
theorem dispatcher_handlers_total :
    (∀ (c : UpstreamClient) (p : Params),
      (∃ v n, handle_search_repositories c p = (HandlerResult.success v, n)) ∨
      (∃ e n, handle_search_repositories c p = (HandlerResult.error e, n))) ∧
    (∀ (c : UpstreamClient) (p : Params),
      (∃ v n, handle_get_repository c p = (HandlerResult.success v, n)) ∨
      (∃ e n, handle_get_repository c p = (HandlerResult.error e, n))) ∧
    (∀ (c : UpstreamClient) (p : Params),
      (∃ v n, handle_list_issues c p = (HandlerResult.success v, n)) ∨
      (∃ e n, handle_list_issues c p = (HandlerResult.error e, n))) ∧
    (∀ (c : UpstreamClient) (p : Params),
      (∃ v n, handle_create_issue c p = (HandlerResult.success v, n)) ∨
      (∃ e n, handle_create_issue c p = (HandlerResult.error e, n))) ∧
    (∀ (c : UpstreamClient) (p : Params),
      (∃ v n, handle_list_pull_requests c p = (HandlerResult.success v, n)) ∨
      (∃ e n, handle_list_pull_requests c p = (HandlerResult.error e, n))) ∧
    (∀ (c : UpstreamClient) (p : Params),
      (∃ v n, handle_get_user_profile c p = (HandlerResult.success v, n)) ∨
      (∃ e n, handle_get_user_profile c p = (HandlerResult.error e, n))) ∧
    (∀ (c : UpstreamClient) (p : Params),
      (∃ v n, handle_list_repos_for_user c p = (HandlerResult.success v, n)) ∨
      (∃ e n, handle_list_repos_for_user c p = (HandlerResult.error e, n))) :=
  ⟨fun _ _ => handler_outcome _, fun _ _ => handler_outcome _, fun _ _ => handler_outcome _,
   fun _ _ => handler_outcome _, fun _ _ => handler_outcome _, fun _ _ => handler_outcome _,
   fun _ _ => handler_outcome _⟩

/-- Claim C9: for the four handlers that accept a `limit` parameter, an
uncoercible `limit` yields the normalized `Failed to <operation>` error with
zero upstream calls; since this happens before required-parameter validation,
it holds for every parameter mapping, in particular ones whose required
parameters are missing. -/
theorem limit_coercion_precedes_validation :
    ∀ (c : UpstreamClient) (p : Params) (e : String),
      (pyInt (paramsGetD p "limit" (Value.vInt 5)) = .error e →
        handle_search_repositories c p =
          (HandlerResult.error ("Failed to search repositories: " ++ e), 0)) ∧
      (pyInt (paramsGetD p "limit" (Value.vInt 10)) = .error e →
        handle_list_issues c p =
          (HandlerResult.error ("Failed to list issues: " ++ e), 0)) ∧
      (pyInt (paramsGetD p "limit" (Value.vInt 10)) = .error e →
        handle_list_pull_requests c p =
          (HandlerResult.error ("Failed to list pull requests: " ++ e), 0)) ∧
      (pyInt (paramsGetD p "limit" (Value.vInt 10)) = .error e →
        handle_list_repos_for_user c p =
          (HandlerResult.error ("Failed to list repositories for user: " ++ e), 0)) := by
  intro c p e
  refine ⟨fun h => ?_, fun h => ?_, fun h => ?_, fun h => ?_⟩
  · simp [handle_search_repositories, h]
  · simp [handle_list_issues, h]
  · simp [handle_list_pull_requests, h]
  · simp [handle_list_repos_for_user, h]

/-- Witness for C9 at `params = {limit: "abc"}`, whose required parameters are
all missing: every limit-accepting handler reports the coercion failure, not
the validation error, and makes no upstream call. -/
theorem limit_coercion_precedes_validation_witness :
    handle_search_repositories (constClient (.ok Value.vNull)) [("limit", Value.vStr "abc")] =
      (HandlerResult.error "Failed to search repositories: invalid literal for int() with base 10: abc", 0) ∧
    handle_list_issues (constClient (.ok Value.vNull)) [("limit", Value.vStr "abc")] =
      (HandlerResult.error "Failed to list issues: invalid literal for int() with base 10: abc", 0) ∧
    handle_list_pull_requests (constClient (.ok Value.vNull)) [("limit", Value.vStr "abc")] =
      (HandlerResult.error "Failed to list pull requests: invalid literal for int() with base 10: abc", 0) ∧
    handle_list_repos_for_user (constClient (.ok Value.vNull)) [("limit", Value.vStr "abc")] =
      (HandlerResult.error "Failed to list repositories for user: invalid literal for int() with base 10: abc", 0) := by
  have h := limit_coercion_precedes_validation (constClient (.ok Value.vNull))
    [("limit", Value.vStr "abc")] "invalid literal for int() with base 10: abc"
  exact ⟨h.1 rfl, h.2.1 rfl, h.2.2.1 rfl, h.2.2.2 rfl⟩

/-- Claim C10: required-parameter validation uses Python truthiness, so a
required parameter bound to `""` (or any falsy value) is rejected exactly like
an omitted one: the handler returns the same fixed validation error and makes
zero upstream calls.  For the limit-accepting handlers this holds whenever the
`limit` coercion succeeds (it always does when `limit` is absent). -/
theorem falsy_required_params_rejected :
    ∀ (c : UpstreamClient) (p : Params),
      (∀ lim, pyInt (paramsGetD p "limit" (Value.vInt 5)) = .ok lim →
        truthy (paramsGetD p "query" (Value.vStr "")) = false →
        handle_search_repositories c p = (HandlerResult.error "Query parameter is required", 0)) ∧
      (truthy (paramsGet p "owner") = false ∨ truthy (paramsGet p "repo") = false →
        handle_get_repository c p = (HandlerResult.error "Owner and repo parameters are required", 0)) ∧
      (∀ lim, pyInt (paramsGetD p "limit" (Value.vInt 10)) = .ok lim →
        truthy (paramsGet p "owner") = false ∨ truthy (paramsGet p "repo") = false →
        handle_list_issues c p = (HandlerResult.error "Owner and repo parameters are required", 0)) ∧
      (truthy (paramsGet p "owner") = false ∨ truthy (paramsGet p "repo") = false ∨
          truthy (paramsGet p "title") = false →
        handle_create_issue c p = (HandlerResult.error "Owner, repo, and title parameters are required", 0)) ∧
      (∀ lim, pyInt (paramsGetD p "limit" (Value.vInt 10)) = .ok lim →
        truthy (paramsGet p "owner") = false ∨ truthy (paramsGet p "repo") = false →
        handle_list_pull_requests c p = (HandlerResult.error "Owner and repo parameters are required", 0)) ∧
      (truthy (paramsGet p "username") = false →
        handle_get_user_profile c p = (HandlerResult.error "Username parameter is required", 0)) ∧
      (∀ lim, pyInt (paramsGetD p "limit" (Value.vInt 10)) = .ok lim →
        truthy (paramsGet p "username") = false →
        handle_list_repos_for_user c p = (HandlerResult.error "Username parameter is required", 0)) := by
  intro c p
  refine ⟨fun lim hl hq => ?_, fun h => ?_, fun lim hl h => ?_, fun h => ?_,
    fun lim hl h => ?_, fun h => ?_, fun lim hl h => ?_⟩
  · simp [handle_search_repositories, hl, hq]
  · rcases h with h | h <;> simp [handle_get_repository, h]
  · rcases h with h | h <;> simp [handle_list_issues, hl, h]
  · rcases h with h | h | h <;> simp [handle_create_issue, h]
  · rcases h with h | h <;> simp [handle_list_pull_requests, hl, h]
  · simp [handle_get_user_profile, h]
  · simp [handle_list_repos_for_user, hl, h]

/-- Witness for C10: with every required parameter bound to the empty string
(and, in a second block, with an empty parameter mapping), each handler returns
its fixed validation error and makes zero upstream calls. -/
theorem falsy_required_params_rejected_witness :
    (handle_search_repositories (constClient (.ok Value.vNull))
        [("query", Value.vStr ""), ("owner", Value.vStr ""), ("username", Value.vStr "")] =
      (HandlerResult.error "Query parameter is required", 0)) ∧
    (handle_get_repository (constClient (.ok Value.vNull))
        [("query", Value.vStr ""), ("owner", Value.vStr ""), ("username", Value.vStr "")] =
      (HandlerResult.error "Owner and repo parameters are required", 0)) ∧
    (handle_list_issues (constClient (.ok Value.vNull))
        [("query", Value.vStr ""), ("owner", Value.vStr ""), ("username", Value.vStr "")] =
      (HandlerResult.error "Owner and repo parameters are required", 0)) ∧
    (handle_create_issue (constClient (.ok Value.vNull))
        [("query", Value.vStr ""), ("owner", Value.vStr ""), ("username", Value.vStr "")] =
      (HandlerResult.error "Owner, repo, and title parameters are required", 0)) ∧
    (handle_list_pull_requests (constClient (.ok Value.vNull))
        [("query", Value.vStr ""), ("owner", Value.vStr ""), ("username", Value.vStr "")] =
      (HandlerResult.error "Owner and repo parameters are required", 0)) ∧
    (handle_get_user_profile (constClient (.ok Value.vNull))
        [("query", Value.vStr ""), ("owner", Value.vStr ""), ("username", Value.vStr "")] =
      (HandlerResult.error "Username parameter is required", 0)) ∧
    (handle_list_repos_for_user (constClient (.ok Value.vNull))
        [("query", Value.vStr ""), ("owner", Value.vStr ""), ("username", Value.vStr "")] =
      (HandlerResult.error "Username parameter is required", 0)) ∧
    (handle_search_repositories (constClient (.ok Value.vNull)) [] =
      (HandlerResult.error "Query parameter is required", 0)) ∧
    (handle_get_repository (constClient (.ok Value.vNull)) [] =
      (HandlerResult.error "Owner and repo parameters are required", 0)) ∧
    (handle_list_issues (constClient (.ok Value.vNull)) [] =
      (HandlerResult.error "Owner and repo parameters are required", 0)) ∧
    (handle_create_issue (constClient (.ok Value.vNull)) [] =
      (HandlerResult.error "Owner, repo, and title parameters are required", 0)) ∧
    (handle_list_pull_requests (constClient (.ok Value.vNull)) [] =
      (HandlerResult.error "Owner and repo parameters are required", 0)) ∧
    (handle_get_user_profile (constClient (.ok Value.vNull)) [] =
      (HandlerResult.error "Username parameter is required", 0)) ∧
    (handle_list_repos_for_user (constClient (.ok Value.vNull)) [] =
      (HandlerResult.error "Username parameter is required", 0)) := by
  have h1 := falsy_required_params_rejected (constClient (.ok Value.vNull))
    [("query", Value.vStr ""), ("owner", Value.vStr ""), ("username", Value.vStr "")]
  have h2 := falsy_required_params_rejected (constClient (.ok Value.vNull)) []
  exact ⟨h1.1 5 rfl rfl, h1.2.1 (Or.inl rfl), h1.2.2.1 10 rfl (Or.inl rfl),
    h1.2.2.2.1 (Or.inl rfl), h1.2.2.2.2.1 10 rfl (Or.inl rfl), h1.2.2.2.2.2.1 rfl,
    h1.2.2.2.2.2.2 10 rfl rfl,
    h2.1 5 rfl rfl, h2.2.1 (Or.inl rfl), h2.2.2.1 10 rfl (Or.inl rfl),
    h2.2.2.2.1 (Or.inl rfl), h2.2.2.2.2.1 10 rfl (Or.inl rfl), h2.2.2.2.2.2.1 rfl,
    h2.2.2.2.2.2.2 10 rfl rfl⟩

/-- The empty string is falsy. -/
theorem truthy_empty : truthy (Value.vStr "") = false := rfl

/-- None is falsy. -/
theorem truthy_null : truthy Value.vNull = false := rfl

/-- Counterexample to claim C2 as stated: for `search_repositories` with the
required `query` missing but `limit = "abc"` supplied, the handler returns the
limit-coercion failure — an error that does not name the missing parameter —
rather than the validation error, although still with zero upstream calls. -/
theorem missing_required_param_counterexample :
    handle_search_repositories (constClient (.ok Value.vNull)) [("limit", Value.vStr "abc")] =
      (HandlerResult.error "Failed to search repositories: invalid literal for int() with base 10: abc", 0) ∧
    "query" ∉ ([("limit", Value.vStr "abc")] : Params).map Prod.fst ∧
    strContains "Failed to search repositories: invalid literal for int() with base 10: abc" "query" = false ∧
    strContains "Failed to search repositories: invalid literal for int() with base 10: abc" "Query" = false ∧
    "Failed to search repositories: invalid literal for int() with base 10: abc" ≠
      "Query parameter is required" := by
  refine ⟨rfl, by simp, rfl, rfl, by decide⟩

/-- Claim C2 as amended: for each of the seven actions, if a required
parameter is missing from the parameter mapping then zero upstream calls are
made, and — provided any supplied `limit` parameter coerces to an integer,
which always holds when `limit` is absent — the handler returns the normalized
validation error naming the missing parameter(s). -/
theorem missing_required_params_rejected :
    ∀ (c : UpstreamClient) (p : Params),
      ("query" ∉ p.map Prod.fst →
        (handle_search_repositories c p).2 = 0 ∧
        ∀ lim, pyInt (paramsGetD p "limit" (Value.vInt 5)) = .ok lim →
          handle_search_repositories c p = (HandlerResult.error "Query parameter is required", 0)) ∧
      ("owner" ∉ p.map Prod.fst ∨ "repo" ∉ p.map Prod.fst →
        handle_get_repository c p = (HandlerResult.error "Owner and repo parameters are required", 0)) ∧
      ("owner" ∉ p.map Prod.fst ∨ "repo" ∉ p.map Prod.fst →
        (handle_list_issues c p).2 = 0 ∧
        ∀ lim, pyInt (paramsGetD p "limit" (Value.vInt 10)) = .ok lim →
          handle_list_issues c p = (HandlerResult.error "Owner and repo parameters are required", 0)) ∧
      ("owner" ∉ p.map Prod.fst ∨ "repo" ∉ p.map Prod.fst ∨ "title" ∉ p.map Prod.fst →
        handle_create_issue c p = (HandlerResult.error "Owner, repo, and title parameters are required", 0)) ∧
      ("owner" ∉ p.map Prod.fst ∨ "repo" ∉ p.map Prod.fst →
        (handle_list_pull_requests c p).2 = 0 ∧
        ∀ lim, pyInt (paramsGetD p "limit" (Value.vInt 10)) = .ok lim →
          handle_list_pull_requests c p = (HandlerResult.error "Owner and repo parameters are required", 0)) ∧
      ("username" ∉ p.map Prod.fst →
        handle_get_user_profile c p = (HandlerResult.error "Username parameter is required", 0)) ∧
      ("username" ∉ p.map Prod.fst →
        (handle_list_repos_for_user c p).2 = 0 ∧
        ∀ lim, pyInt (paramsGetD p "limit" (Value.vInt 10)) = .ok lim →
          handle_list_repos_for_user c p = (HandlerResult.error "Username parameter is required", 0)) := by
  intro c p
  refine ⟨fun h => ?_, fun h => ?_, fun h => ?_, fun h => ?_, fun h => ?_, fun h => ?_, fun h => ?_⟩
  · have hq : paramsGetD p "query" (Value.vStr "") = Value.vStr "" := by
      simp [paramsGetD, lookup_eq_none_of_not_mem _ _ h]
    constructor
    · rcases hL : pyInt (paramsGetD p "limit" (Value.vInt 5)) with e | lim
      · simp [handle_search_repositories, hL]
      · simp [handle_search_repositories, hL, hq, truthy_empty]
    · intro lim hL
      simp [handle_search_repositories, hL, hq, truthy_empty]
  · rcases h with h | h
    · have ho : paramsGet p "owner" = Value.vNull := by
        simp [paramsGet, lookup_eq_none_of_not_mem _ _ h]
      simp [handle_get_repository, ho, truthy]
    · have hr : paramsGet p "repo" = Value.vNull := by
        simp [paramsGet, lookup_eq_none_of_not_mem _ _ h]
      simp [handle_get_repository, hr, truthy]
  · have hv : truthy (paramsGet p "owner") = false ∨ truthy (paramsGet p "repo") = false := by
      rcases h with h | h
      · exact Or.inl (by simp [paramsGet, lookup_eq_none_of_not_mem _ _ h, truthy])
      · exact Or.inr (by simp [paramsGet, lookup_eq_none_of_not_mem _ _ h, truthy])
    constructor
    · rcases hL : pyInt (paramsGetD p "limit" (Value.vInt 10)) with e | lim
      · simp [handle_list_issues, hL]
      · rcases hv with hv | hv <;> simp [handle_list_issues, hL, hv]
    · intro lim hL
      rcases hv with hv | hv <;> simp [handle_list_issues, hL, hv]
  · rcases h with h | h | h
    · simp [handle_create_issue, paramsGet, lookup_eq_none_of_not_mem _ _ h, truthy]
    · simp [handle_create_issue, paramsGet, lookup_eq_none_of_not_mem _ _ h, truthy]
    · simp [handle_create_issue, paramsGet, lookup_eq_none_of_not_mem _ _ h, truthy]
  · have hv : truthy (paramsGet p "owner") = false ∨ truthy (paramsGet p "repo") = false := by
      rcases h with h | h
      · exact Or.inl (by simp [paramsGet, lookup_eq_none_of_not_mem _ _ h, truthy])
      · exact Or.inr (by simp [paramsGet, lookup_eq_none_of_not_mem _ _ h, truthy])
    constructor
    · rcases hL : pyInt (paramsGetD p "limit" (Value.vInt 10)) with e | lim
      · simp [handle_list_pull_requests, hL]
      · rcases hv with hv | hv <;> simp [handle_list_pull_requests, hL, hv]
    · intro lim hL
      rcases hv with hv | hv <;> simp [handle_list_pull_requests, hL, hv]
  · simp [handle_get_user_profile, paramsGet, lookup_eq_none_of_not_mem _ _ h, truthy]
  · have hu : paramsGet p "username" = Value.vNull := by
      simp [paramsGet, lookup_eq_none_of_not_mem _ _ h]
    constructor
    · rcases hL : pyInt (paramsGetD p "limit" (Value.vInt 10)) with e | lim
      · simp [handle_list_repos_for_user, hL]
      · simp [handle_list_repos_for_user, hL, hu, truthy]
    · intro lim hL
      simp [handle_list_repos_for_user, hL, hu, truthy]

/-- Witness for the amended C2 at an empty parameter mapping: every handler
returns its validation error naming the required parameter(s), with zero
upstream calls. -/
theorem missing_required_params_rejected_witness :
    handle_search_repositories (constClient (.error "down")) [] =
      (HandlerResult.error "Query parameter is required", 0) ∧
    handle_get_repository (constClient (.error "down")) [] =
      (HandlerResult.error "Owner and repo parameters are required", 0) ∧
    handle_list_issues (constClient (.error "down")) [] =
      (HandlerResult.error "Owner and repo parameters are required", 0) ∧
    handle_create_issue (constClient (.error "down")) [] =
      (HandlerResult.error "Owner, repo, and title parameters are required", 0) ∧
    handle_list_pull_requests (constClient (.error "down")) [] =
      (HandlerResult.error "Owner and repo parameters are required", 0) ∧
    handle_get_user_profile (constClient (.error "down")) [] =
      (HandlerResult.error "Username parameter is required", 0) ∧
    handle_list_repos_for_user (constClient (.error "down")) [] =
      (HandlerResult.error "Username parameter is required", 0) := by
  have h := missing_required_params_rejected (constClient (.error "down")) []
  exact ⟨(h.1 (by simp)).2 5 rfl, h.2.1 (Or.inl (by simp)),
    (h.2.2.1 (Or.inl (by simp))).2 10 rfl, h.2.2.2.1 (Or.inl (by simp)),
    (h.2.2.2.2.1 (Or.inl (by simp))).2 10 rfl, h.2.2.2.2.2.1 (by simp),
    (h.2.2.2.2.2.2 (by simp)).2 10 rfl⟩

/-- Claim C4: for every action, every possible error outcome is a normalized
error — either the fixed validation message or a message of the exact form
`Failed to <operation>: <cause>` — and when the upstream client raises `e`
after validation passes, the handler returns exactly
`Failed to <operation>: e`; the raw exception never propagates. -/
theorem dispatcher_normalizes_exceptions :
    ∀ (c : UpstreamClient) (p : Params) (e : String),
      (((∃ v n, handle_search_repositories c p = (HandlerResult.success v, n)) ∨
        handle_search_repositories c p = (HandlerResult.error "Query parameter is required", 0) ∨
        (∃ cause n, handle_search_repositories c p =
          (HandlerResult.error ("Failed to search repositories: " ++ cause), n))) ∧
       (∀ lim, pyInt (paramsGetD p "limit" (Value.vInt 5)) = .ok lim →
        truthy (paramsGetD p "query" (Value.vStr "")) = true →
        handle_search_repositories (constClient (.error e)) p =
          (HandlerResult.error ("Failed to search repositories: " ++ e), 1))) ∧
      (((∃ v n, handle_get_repository c p = (HandlerResult.success v, n)) ∨
        handle_get_repository c p = (HandlerResult.error "Owner and repo parameters are required", 0) ∨
        (∃ cause n, handle_get_repository c p =
          (HandlerResult.error ("Failed to get repository: " ++ cause), n))) ∧
       (truthy (paramsGet p "owner") = true → truthy (paramsGet p "repo") = true →
        handle_get_repository (constClient (.error e)) p =
          (HandlerResult.error ("Failed to get repository: " ++ e), 1))) ∧
      (((∃ v n, handle_list_issues c p = (HandlerResult.success v, n)) ∨
        handle_list_issues c p = (HandlerResult.error "Owner and repo parameters are required", 0) ∨
        (∃ cause n, handle_list_issues c p =
          (HandlerResult.error ("Failed to list issues: " ++ cause), n))) ∧
       (∀ lim, pyInt (paramsGetD p "limit" (Value.vInt 10)) = .ok lim →
        truthy (paramsGet p "owner") = true → truthy (paramsGet p "repo") = true →
        handle_list_issues (constClient (.error e)) p =
          (HandlerResult.error ("Failed to list issues: " ++ e), 1))) ∧
      (((∃ v n, handle_create_issue c p = (HandlerResult.success v, n)) ∨
        handle_create_issue c p = (HandlerResult.error "Owner, repo, and title parameters are required", 0) ∨
        (∃ cause n, handle_create_issue c p =
          (HandlerResult.error ("Failed to create issue: " ++ cause), n))) ∧
       (truthy (paramsGet p "owner") = true → truthy (paramsGet p "repo") = true →
        truthy (paramsGet p "title") = true →
        handle_create_issue (constClient (.error e)) p =
          (HandlerResult.error ("Failed to create issue: " ++ e), 1))) ∧
      (((∃ v n, handle_list_pull_requests c p = (HandlerResult.success v, n)) ∨
        handle_list_pull_requests c p = (HandlerResult.error "Owner and repo parameters are required", 0) ∨
        (∃ cause n, handle_list_pull_requests c p =
          (HandlerResult.error ("Failed to list pull requests: " ++ cause), n))) ∧
       (∀ lim, pyInt (paramsGetD p "limit" (Value.vInt 10)) = .ok lim →
        truthy (paramsGet p "owner") = true → truthy (paramsGet p "repo") = true →
        handle_list_pull_requests (constClient (.error e)) p =
          (HandlerResult.error ("Failed to list pull requests: " ++ e), 1))) ∧
      (((∃ v n, handle_get_user_profile c p = (HandlerResult.success v, n)) ∨
        handle_get_user_profile c p = (HandlerResult.error "Username parameter is required", 0) ∨
        (∃ cause n, handle_get_user_profile c p =
          (HandlerResult.error ("Failed to get user profile: " ++ cause), n))) ∧
       (truthy (paramsGet p "username") = true →
        handle_get_user_profile (constClient (.error e)) p =
          (HandlerResult.error ("Failed to get user profile: " ++ e), 1))) ∧
      (((∃ v n, handle_list_repos_for_user c p = (HandlerResult.success v, n)) ∨
        handle_list_repos_for_user c p = (HandlerResult.error "Username parameter is required", 0) ∨
        (∃ cause n, handle_list_repos_for_user c p =
          (HandlerResult.error ("Failed to list repositories for user: " ++ cause), n))) ∧
       (∀ lim, pyInt (paramsGetD p "limit" (Value.vInt 10)) = .ok lim →
        truthy (paramsGet p "username") = true →
        handle_list_repos_for_user (constClient (.error e)) p =
          (HandlerResult.error ("Failed to list repositories for user: " ++ e), 1))) := by
  intro c p e
  refine ⟨⟨?_, ?_⟩, ⟨?_, ?_⟩, ⟨?_, ?_⟩, ⟨?_, ?_⟩, ⟨?_, ?_⟩, ⟨?_, ?_⟩, ⟨?_, ?_⟩⟩
  · unfold handle_search_repositories
    split
    · exact Or.inr (Or.inr ⟨_, _, rfl⟩)
    · split
      · exact Or.inr (Or.inl rfl)
      · split
        · exact Or.inr (Or.inr ⟨_, _, rfl⟩)
        · split
          · exact Or.inr (Or.inr ⟨_, _, rfl⟩)
          · split
            · exact Or.inr (Or.inr ⟨_, _, rfl⟩)
            · exact Or.inl ⟨_, _, rfl⟩
  · intro lim hL hq
    simp [handle_search_repositories, hL, hq, constClient]
  · unfold handle_get_repository
    split
    · exact Or.inr (Or.inl rfl)
    · split
      · exact Or.inr (Or.inr ⟨_, _, rfl⟩)
      · exact Or.inl ⟨_, _, rfl⟩
  · intro ho hr
    simp [handle_get_repository, ho, hr, constClient]
  · unfold handle_list_issues
    split
    · exact Or.inr (Or.inr ⟨_, _, rfl⟩)
    · split
      · exact Or.inr (Or.inl rfl)
      · split
        · exact Or.inr (Or.inr ⟨_, _, rfl⟩)
        · split
          · exact Or.inr (Or.inr ⟨_, _, rfl⟩)
          · split
            · exact Or.inr (Or.inr ⟨_, _, rfl⟩)
            · exact Or.inl ⟨_, _, rfl⟩
  · intro lim hL ho hr
    simp [handle_list_issues, hL, ho, hr, constClient]
  · unfold handle_create_issue
    split
    · exact Or.inr (Or.inl rfl)
    · split
      · exact Or.inr (Or.inr ⟨_, _, rfl⟩)
      · split
        · exact Or.inr (Or.inr ⟨_, _, rfl⟩)
        · exact Or.inl ⟨_, _, rfl⟩
  · intro ho hr ht
    simp [handle_create_issue, ho, hr, ht, constClient]
  · unfold handle_list_pull_requests
    split
    · exact Or.inr (Or.inr ⟨_, _, rfl⟩)
    · split
      · exact Or.inr (Or.inl rfl)
      · split
        · exact Or.inr (Or.inr ⟨_, _, rfl⟩)
        · split
          · exact Or.inr (Or.inr ⟨_, _, rfl⟩)
          · split
            · exact Or.inr (Or.inr ⟨_, _, rfl⟩)
            · exact Or.inl ⟨_, _, rfl⟩
  · intro lim hL ho hr
    simp [handle_list_pull_requests, hL, ho, hr, constClient]
  · unfold handle_get_user_profile
    split
    · exact Or.inr (Or.inl rfl)
    · split
      · exact Or.inr (Or.inr ⟨_, _, rfl⟩)
      · split
        · exact Or.inr (Or.inr ⟨_, _, rfl⟩)
        · exact Or.inl ⟨_, _, rfl⟩
  · intro hu
    simp [handle_get_user_profile, hu, constClient]
  · unfold handle_list_repos_for_user
    split
    · exact Or.inr (Or.inr ⟨_, _, rfl⟩)
    · split
      · exact Or.inr (Or.inl rfl)
      · split
        · exact Or.inr (Or.inr ⟨_, _, rfl⟩)
        · split
          · exact Or.inr (Or.inr ⟨_, _, rfl⟩)
          · split
            · exact Or.inr (Or.inr ⟨_, _, rfl⟩)
            · exact Or.inl ⟨_, _, rfl⟩
  · intro lim hL hu
    simp [handle_list_repos_for_user, hL, hu, constClient]

/-- Witness for C4: with valid parameters and a client whose every method
raises `upstream unreachable`, each of the seven handlers returns exactly the
normalized `Failed to <operation>: upstream unreachable` error after one
upstream call. -/
theorem dispatcher_normalizes_exceptions_witness :
    handle_search_repositories (constClient (.error "upstream unreachable"))
        [("query", Value.vStr "q"), ("owner", Value.vStr "o"), ("repo", Value.vStr "r"),
         ("title", Value.vStr "t"), ("username", Value.vStr "u")] =
      (HandlerResult.error "Failed to search repositories: upstream unreachable", 1) ∧
    handle_get_repository (constClient (.error "upstream unreachable"))
        [("query", Value.vStr "q"), ("owner", Value.vStr "o"), ("repo", Value.vStr "r"),
         ("title", Value.vStr "t"), ("username", Value.vStr "u")] =
      (HandlerResult.error "Failed to get repository: upstream unreachable", 1) ∧
    handle_list_issues (constClient (.error "upstream unreachable"))
        [("query", Value.vStr "q"), ("owner", Value.vStr "o"), ("repo", Value.vStr "r"),
         ("title", Value.vStr "t"), ("username", Value.vStr "u")] =
      (HandlerResult.error "Failed to list issues: upstream unreachable", 1) ∧
    handle_create_issue (constClient (.error "upstream unreachable"))
        [("query", Value.vStr "q"), ("owner", Value.vStr "o"), ("repo", Value.vStr "r"),
         ("title", Value.vStr "t"), ("username", Value.vStr "u")] =
      (HandlerResult.error "Failed to create issue: upstream unreachable", 1) ∧
    handle_list_pull_requests (constClient (.error "upstream unreachable"))
        [("query", Value.vStr "q"), ("owner", Value.vStr "o"), ("repo", Value.vStr "r"),
         ("title", Value.vStr "t"), ("username", Value.vStr "u")] =
      (HandlerResult.error "Failed to list pull requests: upstream unreachable", 1) ∧
    handle_get_user_profile (constClient (.error "upstream unreachable"))
        [("query", Value.vStr "q"), ("owner", Value.vStr "o"), ("repo", Value.vStr "r"),
         ("title", Value.vStr "t"), ("username", Value.vStr "u")] =
      (HandlerResult.error "Failed to get user profile: upstream unreachable", 1) ∧
    handle_list_repos_for_user (constClient (.error "upstream unreachable"))
        [("query", Value.vStr "q"), ("owner", Value.vStr "o"), ("repo", Value.vStr "r"),
         ("title", Value.vStr "t"), ("username", Value.vStr "u")] =
      (HandlerResult.error "Failed to list repositories for user: upstream unreachable", 1) := by
  have h := dispatcher_normalizes_exceptions (constClient (.error "upstream unreachable"))
    [("query", Value.vStr "q"), ("owner", Value.vStr "o"), ("repo", Value.vStr "r"),
     ("title", Value.vStr "t"), ("username", Value.vStr "u")] "upstream unreachable"
  exact ⟨h.1.2 5 rfl rfl, h.2.1.2 rfl rfl, h.2.2.1.2 10 rfl rfl rfl, h.2.2.2.1.2 rfl rfl rfl,
    h.2.2.2.2.1.2 10 rfl rfl rfl, h.2.2.2.2.2.1.2 rfl, h.2.2.2.2.2.2.2 10 rfl rfl⟩

/-- On a dict record, `formatSearchRepo` succeeds with exactly the curated
eight-field entry. -/
theorem formatSearchRepo_obj (fs : List (String × Value)) :
    formatSearchRepo (Value.vObj fs) = .ok (searchRepoFields (Value.vObj fs)) := rfl

/-- Claim C3: for `search_repositories` with a truthy query, when the upstream
client returns a list of raw dict records, the handler succeeds with
`{repositories: [...]}` holding one entry per record in the same order, each
entry being exactly the eight documented fields and nothing else. -/
theorem search_repositories_normalization :
    ∀ (client : UpstreamClient) (p : Params) (rs : List Value) (lim : Int),
      pyInt (paramsGetD p "limit" (Value.vInt 5)) = .ok lim →
      truthy (paramsGetD p "query" (Value.vStr "")) = true →
      client.search_repositories (paramsGetD p "query" (Value.vStr "")) lim
        (paramsGetD p "sort" (Value.vStr "stars"))
        (paramsGetD p "order" (Value.vStr "desc")) = .ok (Value.vList rs) →
      (∀ r ∈ rs, ∃ fs, r = Value.vObj fs) →
      handle_search_repositories client p =
        (HandlerResult.success
          (Value.vObj [("repositories", Value.vList (rs.map searchRepoFields))]), 1) ∧
      (rs.map searchRepoFields).length = rs.length ∧
      ∀ v ∈ rs.map searchRepoFields, ∃ gs, v = Value.vObj gs ∧
        gs.map Prod.fst = ["name", "description", "stars", "forks", "language", "url",
          "created_at", "updated_at"] := by
  intro client p rs lim hL hq hc hobj
  have hmap : mapExcept formatSearchRepo rs = .ok (rs.map searchRepoFields) := by
    refine mapExcept_congr_ok _ _ _ fun r hr => ?_
    obtain ⟨fs, rfl⟩ := hobj r hr
    exact formatSearchRepo_obj fs
  refine ⟨?_, by simp, ?_⟩
  · simp [handle_search_repositories, hL, hq, hc, pyIter, hmap]
  · intro v hv
    obtain ⟨r, hr, rfl⟩ := List.mem_map.mp hv
    obtain ⟨fs, rfl⟩ := hobj r hr
    exact ⟨_, rfl, rfl⟩

/-- Witness for C3 at query `"mcp"` and a fake client returning two raw
records: the result lists exactly the two curated eight-field entries in
order, extra upstream fields dropped. -/
theorem search_repositories_normalization_witness :
    handle_search_repositories
        (constClient (.ok (Value.vList
          [Value.vObj [("full_name", Value.vStr "a/x"), ("stargazers_count", Value.vInt 7),
             ("watchers", Value.vInt 9)],
           Value.vObj [("full_name", Value.vStr "b/y"), ("language", Value.vStr "Py")]])))
        [("query", Value.vStr "mcp")] =
      (HandlerResult.success (Value.vObj [("repositories", Value.vList
        (List.map searchRepoFields
          [Value.vObj [("full_name", Value.vStr "a/x"), ("stargazers_count", Value.vInt 7),
             ("watchers", Value.vInt 9)],
           Value.vObj [("full_name", Value.vStr "b/y"), ("language", Value.vStr "Py")]]))]), 1) := by
  have h := search_repositories_normalization
    (constClient (.ok (Value.vList
      [Value.vObj [("full_name", Value.vStr "a/x"), ("stargazers_count", Value.vInt 7),
         ("watchers", Value.vInt 9)],
       Value.vObj [("full_name", Value.vStr "b/y"), ("language", Value.vStr "Py")]])))
    [("query", Value.vStr "mcp")]
    [Value.vObj [("full_name", Value.vStr "a/x"), ("stargazers_count", Value.vInt 7),
       ("watchers", Value.vInt 9)],
     Value.vObj [("full_name", Value.vStr "b/y"), ("language", Value.vStr "Py")]]
    5 rfl rfl rfl ?_
  · exact h.1
  · intro r hr
    rcases List.mem_cons.mp hr with rfl | hr2
    · exact ⟨_, rfl⟩
    · rcases List.mem_cons.mp hr2 with rfl | hr3
      · exact ⟨_, rfl⟩
      · exact absurd hr3 (List.not_mem_nil r)

/-- On a dict record, `formatIssue` reduces to the user-login fetch followed
by assembly of the curated entry. -/
theorem formatIssue_obj (fs : List (String × Value)) :
    formatIssue (Value.vObj fs) =
      Except.bind (dictGet ((List.lookup "user" fs).getD (Value.vObj [])) "login")
        (fun user => Except.ok (Value.vObj
          [("number", (List.lookup "number" fs).getD Value.vNull),
           ("title", (List.lookup "title" fs).getD Value.vNull),
           ("state", (List.lookup "state" fs).getD Value.vNull),
           ("created_at", (List.lookup "created_at" fs).getD Value.vNull),
           ("updated_at", (List.lookup "updated_at" fs).getD Value.vNull),
           ("user", user),
           ("url", (List.lookup "html_url" fs).getD Value.vNull),
           ("comments", (List.lookup "comments" fs).getD Value.vNull)])) := rfl

/-- An issue record with no `user` field formats with a null user. -/
theorem formatIssue_user_absent (fs : List (String × Value))
    (hu : List.lookup "user" fs = none) :
    formatIssue (Value.vObj fs) = .ok (issueFieldsNullUser (Value.vObj fs)) := by
  rw [formatIssue_obj, hu]
  rfl

/-- An issue record whose `user` dict has no `login` field formats with a
null user. -/
theorem formatIssue_login_absent (fs ufs : List (String × Value))
    (hu : List.lookup "user" fs = some (Value.vObj ufs))
    (hlogin : List.lookup "login" ufs = none) :
    formatIssue (Value.vObj fs) = .ok (issueFieldsNullUser (Value.vObj fs)) := by
  rw [formatIssue_obj, hu,
    show ((some (Value.vObj ufs)).getD (Value.vObj [])) = Value.vObj ufs from rfl,
    show dictGet (Value.vObj ufs) "login" =
      Except.ok ((List.lookup "login" ufs).getD Value.vNull) from rfl,
    hlogin]
  rfl

/-- Claim C5: for `list_issues`, issue records whose `user` field is absent
(or whose nested `user.login` is absent) normalize with `user` null — the
handler succeeds rather than raising or returning an error. -/
theorem list_issues_missing_user_normalizes :
    ∀ (client : UpstreamClient) (p : Params) (issues : List Value) (lim : Int),
      pyInt (paramsGetD p "limit" (Value.vInt 10)) = .ok lim →
      truthy (paramsGet p "owner") = true →
      truthy (paramsGet p "repo") = true →
      client.get_issues (paramsGet p "owner") (paramsGet p "repo")
        (paramsGetD p "state" (Value.vStr "open")) lim = .ok (Value.vList issues) →
      (∀ issue ∈ issues, ∃ fs, issue = Value.vObj fs ∧
        (List.lookup "user" fs = none ∨
         ∃ ufs, List.lookup "user" fs = some (Value.vObj ufs) ∧
           List.lookup "login" ufs = none)) →
      handle_list_issues client p =
        (HandlerResult.success
          (Value.vObj [("issues", Value.vList (issues.map issueFieldsNullUser))]), 1) ∧
      ∀ v ∈ issues.map issueFieldsNullUser, ∃ gs, v = Value.vObj gs ∧
        List.lookup "user" gs = some Value.vNull := by
  intro client p issues lim hL ho hr hc hissue
  have hmap : mapExcept formatIssue issues = .ok (issues.map issueFieldsNullUser) := by
    refine mapExcept_congr_ok _ _ _ fun issue hi => ?_
    obtain ⟨fs, rfl, hu⟩ := hissue issue hi
    rcases hu with hu | ⟨ufs, hu, hlogin⟩
    · exact formatIssue_user_absent fs hu
    · exact formatIssue_login_absent fs ufs hu hlogin
  constructor
  · simp [handle_list_issues, hL, ho, hr, hc, pyIter, hmap]
  · intro v hv
    obtain ⟨r, _, rfl⟩ := List.mem_map.mp hv
    exact ⟨_, rfl, rfl⟩

/-- Witness for C5: two issue records — one with no `user` field, one whose
`user` dict lacks `login` — both normalize with `user` null and the handler
succeeds. -/
theorem list_issues_missing_user_normalizes_witness :
    handle_list_issues
        (constClient (.ok (Value.vList
          [Value.vObj [("number", Value.vInt 1), ("title", Value.vStr "a")],
           Value.vObj [("number", Value.vInt 2),
             ("user", Value.vObj [("id", Value.vInt 9)])]])))
        [("owner", Value.vStr "o"), ("repo", Value.vStr "r")] =
      (HandlerResult.success (Value.vObj [("issues", Value.vList
        (List.map issueFieldsNullUser
          [Value.vObj [("number", Value.vInt 1), ("title", Value.vStr "a")],
           Value.vObj [("number", Value.vInt 2),
             ("user", Value.vObj [("id", Value.vInt 9)])]]))]), 1) := by
  have h := list_issues_missing_user_normalizes
    (constClient (.ok (Value.vList
      [Value.vObj [("number", Value.vInt 1), ("title", Value.vStr "a")],
       Value.vObj [("number", Value.vInt 2),
         ("user", Value.vObj [("id", Value.vInt 9)])]])))
    [("owner", Value.vStr "o"), ("repo", Value.vStr "r")]
    [Value.vObj [("number", Value.vInt 1), ("title", Value.vStr "a")],
     Value.vObj [("number", Value.vInt 2), ("user", Value.vObj [("id", Value.vInt 9)])]]
    10 rfl rfl rfl rfl ?_
  · exact h.1
  · intro issue hi
    rcases List.mem_cons.mp hi with rfl | hi2
    · exact ⟨_, rfl, Or.inl rfl⟩
    · rcases List.mem_cons.mp hi2 with rfl | hi3
      · exact ⟨_, rfl, Or.inr ⟨_, rfl, rfl⟩⟩
      · exact absurd hi3 (List.not_mem_nil issue)

/-- Claim C6: for `create_issue` with truthy `owner`, `repo` and `title` and
no `body` or `labels` parameter supplied, the dispatcher invokes the upstream
client's `create_issue` with `body = ""` and `labels = []`; the handler result
is fully determined by that one call. -/
theorem create_issue_default_body_labels :
    ∀ (client : UpstreamClient) (p : Params),
      List.lookup "body" p = none →
      List.lookup "labels" p = none →
      truthy (paramsGet p "owner") = true →
      truthy (paramsGet p "repo") = true →
      truthy (paramsGet p "title") = true →
      handle_create_issue client p =
        (match client.create_issue (paramsGet p "owner") (paramsGet p "repo")
            (paramsGet p "title") (Value.vStr "") (Value.vList []) with
         | .error e => (HandlerResult.error ("Failed to create issue: " ++ e), 1)
         | .ok issue =>
           match formatCreatedIssue issue with
           | .error e => (HandlerResult.error ("Failed to create issue: " ++ e), 1)
           | .ok fmt => (HandlerResult.success (Value.vObj [("issue", fmt)]), 1)) := by
  intro client p hb hl ho hr ht
  have hbody : paramsGetD p "body" (Value.vStr "") = Value.vStr "" := by
    simp [paramsGetD, hb]
  have hlabels : paramsGetD p "labels" (Value.vList []) = Value.vList [] := by
    simp [paramsGetD, hl]
  simp [handle_create_issue, ho, hr, ht, hbody, hlabels]

/-- Witness for C6 at `owner="a", repo="b", title="t"` and a client whose
`create_issue` echoes its `body` and `labels` arguments back in the created
record: the echoed values are exactly `""` and `[]`. -/
theorem create_issue_default_body_labels_witness :
    handle_create_issue
        { constClient (.error "down") with
          create_issue := fun _ _ _ body labels =>
            .ok (Value.vObj [("number", Value.vInt 12), ("title", body),
              ("html_url", labels)]) }
        [("owner", Value.vStr "a"), ("repo", Value.vStr "b"), ("title", Value.vStr "t")] =
      (HandlerResult.success (Value.vObj [("issue", Value.vObj
        [("number", Value.vInt 12), ("title", Value.vStr ""),
         ("url", Value.vList [])])]), 1) := by
  exact (create_issue_default_body_labels
    { constClient (.error "down") with
      create_issue := fun _ _ _ body labels =>
        .ok (Value.vObj [("number", Value.vInt 12), ("title", body),
          ("html_url", labels)]) }
    [("owner", Value.vStr "a"), ("repo", Value.vStr "b"), ("title", Value.vStr "t")]
    rfl rfl rfl rfl rfl).trans rfl

/-- Claim C7: normalization of `get_repository` is deterministic — any two
upstream clients whose `get_repository` returns the same fixed record yield
structurally identical handler results on the same action parameters, i.e.
two calls against a stub returning the same record twice agree. -/
theorem get_repository_deterministic :
    ∀ (c1 c2 : UpstreamClient) (p : Params) (record : Value),
      (∀ o r, c1.get_repository o r = .ok record) →
      (∀ o r, c2.get_repository o r = .ok record) →
      handle_get_repository c1 p = handle_get_repository c2 p := by
  intro c1 c2 p record h1 h2
  by_cases hb : (!(truthy (paramsGet p "owner")) || !(truthy (paramsGet p "repo"))) = true
  · simp [handle_get_repository, hb]
  · simp only [Bool.not_eq_true] at hb
    simp [handle_get_repository, hb, h1, h2]

/-- Witness for C7: two different stub clients returning the same fixed
record produce identical normalized `get_repository` results. -/
theorem get_repository_deterministic_witness :
    handle_get_repository (constClient (.ok (Value.vObj [("id", Value.vInt 3)])))
        [("owner", Value.vStr "a"), ("repo", Value.vStr "b")] =
      handle_get_repository
        { constClient (.error "down") with
          get_repository := fun _ _ => .ok (Value.vObj [("id", Value.vInt 3)]) }
        [("owner", Value.vStr "a"), ("repo", Value.vStr "b")] :=
  get_repository_deterministic
    (constClient (.ok (Value.vObj [("id", Value.vInt 3)])))
    { constClient (.error "down") with
      get_repository := fun _ _ => .ok (Value.vObj [("id", Value.vInt 3)]) }
    [("owner", Value.vStr "a"), ("repo", Value.vStr "b")]
    (Value.vObj [("id", Value.vInt 3)])
    (fun _ _ => rfl) (fun _ _ => rfl)

/-- Claim C8: in the upstream client's request primitive, a successful
response with status 204 yields the empty record, whatever the outcome of
parsing the response body would have been (no body parse is attempted). -/
theorem make_request_no_content :
    ∀ (send : String → String → Option Value → Option Value → HttpResponse)
      (method endpoint : String) (params data : Option Value),
      (∀ m u pa d, (send m u pa d).status = 204) →
      (strUpper method = "GET" ∨ strUpper method = "POST" ∨ strUpper method = "PUT" ∨
        strUpper method = "DELETE") →
      make_request send method endpoint params data = .ok (Value.vObj []) := by
  intro send method endpoint params data hstatus hm
  rcases hm with h | h | h | h <;>
    simp [make_request, h, hstatus]

/-- Witness for C8: a transport returning status 204 with an unparsable body
still yields the empty record. -/
theorem make_request_no_content_witness :
    make_request (fun _ _ _ _ => { status := 204, jsonBody := .error "invalid json" })
      "get" "/repos/a/b" none none = .ok (Value.vObj []) :=
  make_request_no_content _ "get" "/repos/a/b" none none
    (fun _ _ _ _ => rfl) (Or.inl rfl)
